import Mathlib

/-!
# Verification of the Hyperscape autonomous-agent core

A shallow embedding of the autonomous decision engine of the Hyperscape
clawdbot skill: the goal catalog and `selectGoal` (src/autonomy/goals.ts),
the guardrail catalog and `checkGuardrails` (src/autonomy/guardrails.ts),
and the tick-based decision loop of `AutonomousAgent` (src/index.ts),
together with theorems checking the specified behaviour.

Modelling conventions:
* JavaScript numbers are modelled as `ℚ` (all arithmetic in the embedded
  code is exact on rationals; no claim depends on float rounding).
* `Infinity` (used for the initial time-since-last-X fields of the goal
  context) is modelled as `⊤ : WithTop ℚ`.
* Optional fields (`x?: T`) are `Option`; `a ?? b` is `Option.getD`,
  optional chaining is `Option.bind`.
* TS `Record<string, T>` is an association list with first-match lookup.
* JS `Map` iteration order (insertion order) is the list order of
  `nearbyEntities`.
* `Date.now()` and `Math.random()` are inputs supplied through a
  `TickEnv` value; the trigonometric random-walk offsets of exploration
  moves are supplied as already-drawn rational offsets.
* Free-text prompt generation (`getPrompt`, the `thinking` string of a
  thought) and external I/O (logging, the network client) are not part of
  any checked claim and are left out of the embedding; the observable
  effects of a tick (dispatched game commands, a random fallback move,
  stopping) are returned explicitly in a `TickResult`.
-/

/-- JS `hay.includes(needle)` on the underlying character lists. -/
def charsIncludes (needle : List Char) : List Char → Bool
  | [] => needle.isEmpty
  | c :: cs => needle.isPrefixOf (c :: cs) || charsIncludes needle cs

/-- JS `String.prototype.includes`: substring test. -/
def strIncludes (hay needle : String) : Bool :=
  charsIncludes needle.toList hay.toList

/-- JS `String.prototype.toLowerCase` (ASCII-faithful), implemented as a
character-wise map so that it evaluates by kernel reduction. -/
def strToLower (s : String) : String :=
  String.mk (s.data.map Char.toLower)

/-- JS `Number.prototype.toFixed(0)` abstracted as rounding to the nearest
integer (only used inside human-readable guardrail messages). -/
def ratToFixed0 (q : ℚ) : String :=
  toString (round q)

-- === Data model (src/types.ts) ===

structure SkillData where
  level : ℚ
  xp : ℚ
deriving Repr

structure InventoryItem where
  itemId : String
  quantity : ℚ
  slot : ℚ
  name : Option String
deriving Repr

structure EquippedItem where
  itemId : String
  name : Option String
  slot : String
deriving Repr

structure Entity where
  id : String
  type : String
  name : Option String
  position : Option (ℚ × ℚ × ℚ)
  health : Option ℚ
  maxHealth : Option ℚ
  level : Option ℚ
  alive : Option Bool
  combatLevel : Option ℚ
deriving Repr

/-- Source `PlayerEntity` (the fields the autonomy core reads). -/
structure PlayerEntity where
  inventory : Option (List InventoryItem)
  skills : Option (List (String × SkillData))
  equipment : Option (List (String × EquippedItem))
  isDead : Option Bool
  health : Option ℚ
  maxHealth : Option ℚ
  position : Option (ℚ × ℚ × ℚ)
deriving Repr

/-- Source `GameState` (the fields the autonomy core reads). -/
structure GameState where
  connected : Bool
  playerEntity : Option PlayerEntity
  nearbyEntities : List (String × Entity)
  bankOpen : Bool
  dialogueOpen : Bool
  storeOpen : Bool
  currentTarget : Option String
deriving Repr

/-- JS `Map.prototype.get` over the insertion-ordered entity map. -/
def GameState.getEntity (s : GameState) (k : String) : Option Entity :=
  (s.nearbyEntities.find? (fun p => p.1 = k)).map (fun p => p.2)

/-- JS `Array.from(map.values())` over the insertion-ordered entity map. -/
def GameState.entityValues (s : GameState) : List Entity :=
  s.nearbyEntities.map (fun p => p.2)

/-- Truthiness of `state.playerEntity?.isDead` (also `=== true`, as the two
coincide for a `boolean | undefined` field). -/
def playerIsDead (s : GameState) : Bool :=
  match s.playerEntity with
  | none => false
  | some p => p.isDead.getD false

/-- Source `Record` lookup with a `?? default` fallback. -/
def recordGetD {α : Type} (r : List (String × α)) (k : String) (d : α) : α :=
  match r.find? (fun p => p.1 = k) with
  | some p => p.2
  | none => d

-- === Proposed actions ===

/-- Source `ProposedAction` is a tool name plus a parameter record; the record is
flattened to the parameters the embedded code actually reads. -/
structure ProposedAction where
  tool : String
  itemId : String := ""
  targetId : String := ""
  resourceId : String := ""
  npcId : String := ""
  npcAction : String := ""
  x : ℚ := 0
  y : ℚ := 0
  z : ℚ := 0
deriving Repr, DecidableEq

-- === Guardrails (src/autonomy/guardrails.ts) ===

inductive Severity where
  | warning
  | block
  | critical
deriving Repr, DecidableEq, BEq

structure Guardrail where
  id : String
  name : String
  description : String
  severity : Severity
  isTriggered : GameState → ProposedAction → Bool
  getMessage : GameState → String

structure GuardrailResult where
  allowed : Bool
  violations : List (Guardrail × String)
  warnings : List String

/-- Source `getHealthPercent` (identical helper in goals.ts and guardrails.ts):
`(health ?? 0) / maxHealth * 100`, with 100 when there is no player or
`maxHealth` is absent or zero (falsy). -/
def getHealthPercent (s : GameState) : ℚ :=
  match s.playerEntity with
  | none => 100
  | some player =>
    match player.maxHealth with
    | none => 100
    | some m => if m = 0 then 100 else (player.health.getD 0) / m * 100

def valuablePatterns : List String :=
  ["rune", "dragon", "mystic", "amulet", "ring", "necklace",
   "ancient", "rare", "unique", "gold", "coin"]

/-- Source `isValuableItem`: case-insensitive keyword match against the item name
when given, otherwise against the item id. -/
def isValuableItem (itemId : String) (itemName : Option String) : Bool :=
  let name := strToLower (itemName.getD itemId)
  valuablePatterns.any (fun p => strIncludes name p)

/-- Source `getMobLevel`: `mob.level ?? mob.combatLevel ?? 1`. -/
def getMobLevel (mob : Entity) : ℚ :=
  (mob.level.orElse (fun _ => mob.combatLevel)).getD 1

/-- Source `getPlayerCombatLevel`: floored average of four skill levels. -/
def getPlayerCombatLevel (s : GameState) : ℤ :=
  let skills := (s.playerEntity.bind (fun p => p.skills)).getD []
  let skillLevel := fun (k : String) (d : ℚ) =>
    match skills.find? (fun p => p.1 = k) with
    | some p => p.2.level
    | none => d
  let attack := skillLevel "attack" 1
  let strength := skillLevel "strength" 1
  let defence := skillLevel "defence" 1
  let hitpoints := skillLevel "hitpoints" 10
  ⌊(attack + strength + defence + hitpoints) / 4⌋

/-- The item the `no_drop_valuables` / `no_sell_valuables` rules look up:
`state.playerEntity?.inventory?.find(i => i.itemId === itemId)`. -/
def inventoryItemById (s : GameState) (itemId : String) : Option InventoryItem :=
  (s.playerEntity.bind (fun p => p.inventory)).bind
    (fun inv => inv.find? (fun i => i.itemId = itemId))

/-- The name argument `isValuableItem` receives for a drop/sell check. -/
def droppedItemName (s : GameState) (itemId : String) : Option String :=
  (inventoryItemById s itemId).bind (fun i => i.name)

-- === The guardrail catalog ===

def no_combat_low_hp : Guardrail :=
  { id := "no_combat_low_hp"
    name := "No Combat at Low HP"
    description := "Do not engage in combat when health is critically low"
    severity := Severity.block
    isTriggered := fun state action =>
      let combatActions := ["hyperscape_attack"]
      if !combatActions.contains action.tool then false
      else decide (getHealthPercent state < 25)
    getMessage := fun state =>
      "⚠️ BLOCKED: Health is at " ++ ratToFixed0 (getHealthPercent state) ++
      "%. Do not attack anything - flee and heal first!" }

def flee_threshold : Guardrail :=
  { id := "flee_threshold"
    name := "Force Flee at Critical HP"
    description := "Must flee when HP drops below 15%"
    severity := Severity.critical
    isTriggered := fun state _ =>
      decide (getHealthPercent state < 15) && !playerIsDead state
    getMessage := fun _ =>
      "🚨 CRITICAL: Health below 15%! MUST flee immediately. All other goals suspended until safe." }

def no_drop_valuables : Guardrail :=
  { id := "no_drop_valuables"
    name := "Don't Drop Valuable Items"
    description := "Never drop rare or valuable items"
    severity := Severity.block
    isTriggered := fun state action =>
      if action.tool ≠ "hyperscape_drop" then false
      else isValuableItem action.itemId (droppedItemName state action.itemId)
    getMessage := fun _ =>
      "⚠️ BLOCKED: Cannot drop valuable items. Bank them instead." }

def no_sell_valuables : Guardrail :=
  { id := "no_sell_valuables"
    name := "Don't Sell Valuable Items"
    description := "Never sell rare items to NPC stores"
    severity := Severity.warning
    isTriggered := fun state action =>
      if action.tool ≠ "hyperscape_store_sell" then false
      else isValuableItem action.itemId (droppedItemName state action.itemId)
    getMessage := fun _ =>
      "⚠️ WARNING: About to sell a valuable item. Consider banking instead." }

def no_attack_high_level : Guardrail :=
  { id := "no_attack_high_level"
    name := "Don't Attack Overpowered Mobs"
    description := "Don't attack mobs significantly higher level"
    severity := Severity.warning
    isTriggered := fun state action =>
      if action.tool ≠ "hyperscape_attack" then false
      else
        match state.getEntity action.targetId with
        | none => false
        | some target =>
          decide (getMobLevel target > (getPlayerCombatLevel state : ℚ) + 10)
    getMessage := fun state =>
      "⚠️ WARNING: Target is much higher level than you (combat level ~" ++
      toString (getPlayerCombatLevel state) ++ "). Consider finding easier targets." }

def no_multi_combat : Guardrail :=
  { id := "no_multi_combat"
    name := "Avoid Attacking While Already in Combat"
    description := "Don't engage new enemies when already fighting"
    severity := Severity.warning
    isTriggered := fun state action =>
      if action.tool ≠ "hyperscape_attack" then false
      else
        match state.currentTarget with
        | none => false
        | some currentTarget => decide (currentTarget ≠ action.targetId)
    getMessage := fun _ =>
      "⚠️ WARNING: Already fighting another target. Focus on current enemy first." }

def inventory_full_warning : Guardrail :=
  { id := "inventory_full_warning"
    name := "Inventory Full Warning"
    description := "Warn when inventory is nearly full"
    severity := Severity.warning
    isTriggered := fun state action =>
      let gatherActions := ["hyperscape_gather", "hyperscape_pickup"]
      if !gatherActions.contains action.tool then false
      else
        let inv := (state.playerEntity.bind (fun p => p.inventory)).getD []
        decide (inv.length ≥ 26)
    getMessage := fun _ =>
      "⚠️ WARNING: Inventory almost full (26+/28 slots). Consider banking soon." }

def respect_dialogue : Guardrail :=
  { id := "respect_dialogue"
    name := "Complete Dialogue First"
    description := "Don't interrupt active dialogues"
    severity := Severity.block
    isTriggered := fun state action =>
      if !state.dialogueOpen then false
      else
        let dialogueActions :=
          ["hyperscape_dialogue_respond", "hyperscape_dialogue_continue",
           "hyperscape_dialogue_close"]
        !dialogueActions.contains action.tool
    getMessage := fun _ =>
      "⚠️ BLOCKED: Dialogue is open. Complete or close the dialogue first." }

def respect_bank : Guardrail :=
  { id := "respect_bank"
    name := "Complete Banking First"
    description := "Don't wander off with bank open"
    severity := Severity.block
    isTriggered := fun state action =>
      if !state.bankOpen then false
      else
        let bankActions :=
          ["hyperscape_bank_deposit", "hyperscape_bank_deposit_all",
           "hyperscape_bank_withdraw", "hyperscape_bank_close"]
        let allowedActions := bankActions ++ ["hyperscape_status"]
        !allowedActions.contains action.tool
    getMessage := fun _ =>
      "⚠️ BLOCKED: Bank is open. Complete banking or close the bank first." }

def respect_store : Guardrail :=
  { id := "respect_store"
    name := "Complete Store Transaction First"
    description := "Don't leave store without closing"
    severity := Severity.block
    isTriggered := fun state action =>
      if !state.storeOpen then false
      else
        let storeActions :=
          ["hyperscape_store_buy", "hyperscape_store_sell", "hyperscape_store_close"]
        let allowedActions := storeActions ++ ["hyperscape_status"]
        !allowedActions.contains action.tool
    getMessage := fun _ =>
      "⚠️ BLOCKED: Store is open. Complete transaction or close the store first." }

def GUARDRAILS : List Guardrail :=
  [no_combat_low_hp, flee_threshold, no_drop_valuables, no_sell_valuables,
   no_attack_high_level, no_multi_combat, inventory_full_warning,
   respect_dialogue, respect_bank, respect_store]

/-- Whether a severity halts the proposed action
(`severity === "block" || severity === "critical"`). -/
def Severity.isBlocking : Severity → Bool
  | Severity.block => true
  | Severity.critical => true
  | Severity.warning => false

/-- The accumulation loop of `checkGuardrails`, as structural recursion over
the (insertion-ordered) guardrail list: the imperative loop pushes
violations and warnings in list order and clears `allowed` on any
triggered blocking rule. -/
def checkGuardrailsList (state : GameState) (action : ProposedAction) :
    List Guardrail → GuardrailResult
  | [] => { allowed := true, violations := [], warnings := [] }
  | g :: gs =>
    let rest := checkGuardrailsList state action gs
    if g.isTriggered state action then
      let message := g.getMessage state
      if g.severity.isBlocking then
        { allowed := false
          violations := (g, message) :: rest.violations
          warnings := rest.warnings }
      else
        { allowed := rest.allowed
          violations := rest.violations
          warnings := message :: rest.warnings }
    else rest

/-- Source `checkGuardrails`: check all guardrails against a proposed action. -/
def checkGuardrails (state : GameState) (action : ProposedAction) : GuardrailResult :=
  checkGuardrailsList state action GUARDRAILS

-- === Goals (src/autonomy/goals.ts) ===

inductive Category where
  | combat
  | skilling
  | gathering
  | exploration
  | social
  | survival
deriving Repr, DecidableEq

/-- Source `GoalContext`. The two time-since fields start at `Infinity`, hence
`WithTop ℚ`; `sessionDuration` is always a finite difference of clock
readings. -/
structure GoalContext where
  recentGoals : List String
  recentGoalCounts : List (String × ℚ)
  timeSinceLastCombat : WithTop ℚ
  timeSinceLastSkilling : WithTop ℚ
  sessionDuration : ℚ
  xpGained : List (String × ℚ)

structure GoalProgress where
  goalId : String
  startedAt : ℚ
  targetsKilled : Option ℚ := none
  resourcesGathered : Option ℚ := none
  xpGained : Option ℚ := none
  itemsCollected : Option ℚ := none
deriving Repr

/-- Source `GoalTemplate`. `isComplete` reads `Date.now()`, supplied here as a
final `now` argument; the free-text `getPrompt` generator is not modelled
(it feeds only the untracked `thinking` string). -/
structure GoalTemplate where
  id : String
  name : String
  description : String
  category : Category
  isPossible : GameState → Bool
  score : GameState → GoalContext → ℚ
  isComplete : GameState → GoalProgress → ℚ → Bool

/-- Source `hasFood`: a name matching fish/meat/bread case-insensitively, or an
item id containing `cooked` (this one case-sensitively, as in the source). -/
def hasFood (s : GameState) : Bool :=
  let inv := (s.playerEntity.bind (fun p => p.inventory)).getD []
  inv.any (fun item =>
    (match item.name with
     | some n => strIncludes (strToLower n) "fish" || strIncludes (strToLower n) "meat" ||
                 strIncludes (strToLower n) "bread"
     | none => false) ||
    strIncludes item.itemId "cooked")

/-- Source `hasWeapon`: truthiness of `equipment.weapon` or `equipment.mainhand`. -/
def hasWeapon (s : GameState) : Bool :=
  let equipment := (s.playerEntity.bind (fun p => p.equipment)).getD []
  (equipment.find? (fun p => p.1 = "weapon")).isSome ||
  (equipment.find? (fun p => p.1 = "mainhand")).isSome

def getNearbyMobs (s : GameState) : List Entity :=
  s.entityValues.filter (fun e => e.type = "mob" && e.alive ≠ some false)

def getNearbyResources (s : GameState) : List Entity :=
  s.entityValues.filter (fun e => ["resource", "tree", "rock", "fishing"].contains e.type)

def getGroundItems (s : GameState) : List Entity :=
  s.entityValues.filter (fun e => e.type = "item" || e.type = "groundItem")

def getSkillLevel (s : GameState) (skill : String) : ℚ :=
  match ((s.playerEntity.bind (fun p => p.skills)).getD []).find? (fun p => p.1 = skill) with
  | some p => p.2.level
  | none => 1

def getInventorySpace (s : GameState) : ℤ :=
  let inv := (s.playerEntity.bind (fun p => p.inventory)).getD []
  28 - (inv.length : ℤ)

/-- Source `getDiversityPenalty`: `min(count * 15, 45)`. -/
def getDiversityPenalty (goalId : String) (context : GoalContext) : ℚ :=
  let count := recordGetD context.recentGoalCounts goalId 0
  min (count * 15) 45

-- === The goal templates ===

def flee_danger : GoalTemplate :=
  { id := "flee_danger"
    name := "Flee from Danger"
    description := "Health is critically low, need to escape and heal"
    category := Category.survival
    isPossible := fun state =>
      decide (getHealthPercent state < 25) && !playerIsDead state
    score := fun state _ =>
      let hp := getHealthPercent state
      if hp < 10 then 100
      else if hp < 15 then 95
      else if hp < 20 then 90
      else if hp < 25 then 85
      else 0
    isComplete := fun state _ _ =>
      decide (getHealthPercent state > 50) || playerIsDead state }

def eat_food : GoalTemplate :=
  { id := "eat_food"
    name := "Eat Food to Heal"
    description := "Health is low, eat food to recover"
    category := Category.survival
    isPossible := fun state =>
      decide (getHealthPercent state < 60) && hasFood state
    score := fun state _ =>
      let hp := getHealthPercent state
      if hp < 30 then 80
      else if hp < 40 then 60
      else if hp < 50 then 40
      else 20
    isComplete := fun state _ _ => decide (getHealthPercent state > 80) }

def respawn : GoalTemplate :=
  { id := "respawn"
    name := "Respawn After Death"
    description := "Player is dead and needs to respawn"
    category := Category.survival
    isPossible := fun state => playerIsDead state
    score := fun _ _ => 100
    isComplete := fun state _ _ => !playerIsDead state }

def train_combat : GoalTemplate :=
  { id := "train_combat"
    name := "Train Combat Skills"
    description := "Fight mobs to gain combat XP"
    category := Category.combat
    isPossible := fun state =>
      hasWeapon state && decide (getHealthPercent state > 40) &&
      decide ((getNearbyMobs state).length > 0)
    score := fun state ctx =>
      let score : ℚ := 50
      let score := if getHealthPercent state > 80 then score + 10 else score
      let mobs := getNearbyMobs state
      let lowLevelMobs := mobs.filter
        (fun m => m.level.getD 1 ≤ getSkillLevel state "attack" + 5)
      let score := if lowLevelMobs.length > 3 then score + 15 else score
      let score := if ctx.timeSinceLastCombat < (60000 : ℚ) then score - 10 else score
      let score := score - getDiversityPenalty "train_combat" ctx
      max 0 score
    isComplete := fun _ progress now =>
      decide (progress.targetsKilled.getD 0 ≥ 5) ||
      decide (now - progress.startedAt > 300000) }

def gather_resources : GoalTemplate :=
  { id := "gather_resources"
    name := "Gather Resources"
    description := "Gather from trees, rocks, or fishing spots"
    category := Category.gathering
    isPossible := fun state =>
      decide ((getNearbyResources state).length > 0) &&
      decide (getInventorySpace state > 0)
    score := fun state ctx =>
      let score : ℚ := 45
      let score := if (getNearbyResources state).length > 5 then score + 15 else score
      let score := if getInventorySpace state > 20 then score + 10 else score
      let score := if ctx.timeSinceLastSkilling < (60000 : ℚ) then score - 15 else score
      let score := score - getDiversityPenalty "gather_resources" ctx
      max 0 score
    isComplete := fun state progress now =>
      decide (getInventorySpace state < 3) ||
      decide (progress.resourcesGathered.getD 0 ≥ 10) ||
      decide (now - progress.startedAt > 300000) }

def explore_area : GoalTemplate :=
  { id := "explore_area"
    name := "Explore New Areas"
    description := "Move around and discover new locations"
    category := Category.exploration
    isPossible := fun state =>
      !playerIsDead state && decide (getHealthPercent state > 50)
    score := fun state ctx =>
      let score : ℚ := 30
      let score := if ctx.sessionDuration > 600000 then score + 15 else score
      let score := if (getNearbyMobs state).length > 3 then score - 20 else score
      let score := if (getNearbyResources state).length > 3 then score - 15 else score
      let score := score - getDiversityPenalty "explore_area" ctx
      max 0 score
    isComplete := fun _ progress now => decide (now - progress.startedAt > 120000) }

def collect_loot : GoalTemplate :=
  { id := "collect_loot"
    name := "Collect Ground Items"
    description := "Pick up valuable items from the ground"
    category := Category.gathering
    isPossible := fun state =>
      decide ((getGroundItems state).length > 0) &&
      decide (getInventorySpace state > 0)
    score := fun state ctx =>
      let score : ℚ := 55
      let score := if (getGroundItems state).length > 5 then score + 20 else score
      let score := if getInventorySpace state < 5 then score + 10 else score
      let score := score - getDiversityPenalty "collect_loot" ctx
      max 0 score
    isComplete := fun state _ _ =>
      decide ((getGroundItems state).length = 0) ||
      decide (getInventorySpace state = 0) }

def bank_items : GoalTemplate :=
  { id := "bank_items"
    name := "Bank Inventory"
    description := "Deposit items to bank when inventory is full"
    category := Category.exploration
    isPossible := fun state =>
      let hasNearbyBank := state.entityValues.any (fun e =>
        (match e.name with
         | some n => strIncludes (strToLower n) "bank"
         | none => false) || e.type == "bank")
      decide (getInventorySpace state < 5) && hasNearbyBank
    score := fun state _ =>
      if getInventorySpace state = 0 then 70
      else if getInventorySpace state < 3 then 55
      else 35
    isComplete := fun state _ _ =>
      !state.bankOpen && decide (getInventorySpace state > 20) }

def GOAL_TEMPLATES : List GoalTemplate :=
  [flee_danger, eat_food, respawn, train_combat, gather_resources,
   explore_area, collect_loot, bank_items]

-- === Goal selection ===

/-- Stable insertion (by descending score) used to model the JS
`Array.prototype.sort` call with comparator `b.score - a.score`; JS sort
is stable, so equal scores keep catalog order. -/
def insertByScoreDesc (x : GoalTemplate × ℚ) :
    List (GoalTemplate × ℚ) → List (GoalTemplate × ℚ)
  | [] => [x]
  | y :: ys => if x.2 ≥ y.2 then x :: y :: ys else y :: insertByScoreDesc x ys

/-- Stable descending sort by score. -/
def sortByScoreDesc (l : List (GoalTemplate × ℚ)) : List (GoalTemplate × ℚ) :=
  l.foldr insertByScoreDesc []

/-- Source `selectGoal`: filter to possible goals, score them, sort descending,
return the top goal (or none when nothing is possible). -/
def selectGoal (state : GameState) (context : GoalContext) : Option GoalTemplate :=
  let possibleGoals := GOAL_TEMPLATES.filter (fun g => g.isPossible state)
  if possibleGoals.isEmpty then none
  else
    let scored := possibleGoals.map (fun g => (g, g.score state context))
    let sorted := sortByScoreDesc scored
    sorted.head?.map (fun p => p.1)

/-- Source `createGoalContext`: the session-start context (`Infinity` timers). -/
def createGoalContext : GoalContext :=
  { recentGoals := []
    recentGoalCounts := []
    timeSinceLastCombat := ⊤
    timeSinceLastSkilling := ⊤
    sessionDuration := 0
    xpGained := [] }

/-- JS object update `r[k] = v`: replace the binding or add it. -/
def recordSet {α : Type} (r : List (String × α)) (k : String) (v : α) :
    List (String × α) :=
  if (r.find? (fun p => p.1 = k)).isSome then
    r.map (fun p => if p.1 = k then (k, v) else p)
  else r ++ [(k, v)]

/-- Source `updateGoalContext`: fold a completed goal into the context. -/
def updateGoalContext (context : GoalContext) (goalId : String) : GoalContext :=
  let recentGoals := (goalId :: context.recentGoals).take 10
  let recentGoalCounts :=
    recordSet context.recentGoalCounts goalId
      (recordGetD context.recentGoalCounts goalId 0 + 1)
  let goal := GOAL_TEMPLATES.find? (fun g => g.id = goalId)
  let context := { context with recentGoals, recentGoalCounts }
  match goal with
  | some g =>
    if g.category = Category.combat then
      { context with timeSinceLastCombat := 0 }
    else if g.category = Category.skilling || g.category = Category.gathering then
      { context with timeSinceLastSkilling := 0 }
    else context
  | none => context

-- === The decision loop (AutonomousAgent, src/index.ts) ===

/-- Source `AgentStats` (per-session counters). -/
structure AgentStats where
  sessionStart : ℚ
  tickCount : ℚ
  goalsCompleted : ℚ
  xpGained : List (String × ℚ)
  mobsKilled : ℚ
  resourcesGathered : ℚ
  deaths : ℚ

/-- The resolved agent configuration (the Telegram/prompt fields are pure
logging concerns and carry no control flow). -/
structure AgentConfig where
  tickInterval : ℚ
  maxSessionDuration : ℚ
  verbose : Bool

/-- Source `AgentThought` (the free-text `thinking` string is not modelled; the
JSON round-trip of the chosen action is modelled as the action itself). -/
structure AgentThought where
  timestamp : ℚ
  action : Option ProposedAction
  goal : Option String
  warnings : List String

/-- The mutable fields of `AutonomousAgent`. `tickTimerSet` models whether
`tickTimer` currently holds a pending timeout. -/
structure Agent where
  config : AgentConfig
  running : Bool
  tickTimerSet : Bool
  goalContext : GoalContext
  currentGoal : Option GoalTemplate
  goalProgress : Option GoalProgress
  thoughts : List AgentThought
  stats : AgentStats

/-- Clock and random draws consumed by one tick. `exploreDx`/`exploreDz`
stand for the `cos(angle)*distance` / `sin(angle)*distance` offsets the
source derives from two `Math.random()` calls. -/
structure TickEnv where
  now : ℚ
  exploreDx : ℚ
  exploreDz : ℚ

/-- What one tick did, observably: commands dispatched through
`executeAction`, whether the no-goal `randomMove` fallback ran, and
whether the session was stopped (which also logs the final stats). -/
structure TickResult where
  agent : Agent
  actions : List ProposedAction
  randomMoved : Bool
  stopped : Bool

/-- Source `createStats()`. -/
def createStats (now : ℚ) : AgentStats :=
  { sessionStart := now, tickCount := 0, goalsCompleted := 0,
    xpGained := [], mobsKilled := 0, resourcesGathered := 0, deaths := 0 }

/-- Source `selectActionForGoal`: the goal-id → concrete action mapping. -/
def selectActionForGoal (env : TickEnv) (state : GameState)
    (goal : GoalTemplate) : Option ProposedAction :=
  let nearbyMobs := state.entityValues.filter
    (fun e => e.type = "mob" && e.alive ≠ some false)
  let nearbyResources := state.entityValues.filter
    (fun e => ["resource", "tree", "rock", "fishing"].contains e.type)
  let groundItems := state.entityValues.filter
    (fun e => e.type = "item" || e.type = "groundItem")
  if goal.id = "flee_danger" then
    some { tool := "hyperscape_home_teleport" }
  else if goal.id = "eat_food" then
    let food := (state.playerEntity.bind (fun p => p.inventory)).bind
      (fun inv => inv.find? (fun i =>
        match i.name with
        | some n => strIncludes (strToLower n) "fish" || strIncludes (strToLower n) "meat" ||
                    strIncludes (strToLower n) "bread"
        | none => false))
    match food with
    | some f => some { tool := "hyperscape_use_item", itemId := f.itemId }
    | none => none
  else if goal.id = "respawn" then
    some { tool := "hyperscape_respawn" }
  else if goal.id = "train_combat" then
    -- `nearbyMobs.sort((a,b) => (a.level ?? 1) - (b.level ?? 1))[0]`:
    -- a stable ascending sort followed by `[0]` picks the first mob of
    -- minimal level, computed here directly.
    match (nearbyMobs.foldr (fun m acc =>
      match acc with
      | none => some m
      | some best => if m.level.getD 1 ≤ best.level.getD 1 then some m else some best)
      none : Option Entity) with
    | some target => some { tool := "hyperscape_attack", targetId := target.id }
    | none => none
  else if goal.id = "gather_resources" then
    match nearbyResources.head? with
    | some target => some { tool := "hyperscape_gather", resourceId := target.id }
    | none => none
  else if goal.id = "collect_loot" then
    match groundItems.head? with
    | some target => some { tool := "hyperscape_pickup", itemId := target.id }
    | none => none
  else if goal.id = "explore_area" then
    let pos := ((state.playerEntity.bind (fun p => p.position)).getD (0, 0, 0))
    some { tool := "hyperscape_move",
           x := pos.1 + env.exploreDx, y := pos.2.1, z := pos.2.2 + env.exploreDz }
  else if goal.id = "bank_items" then
    if state.bankOpen then
      some { tool := "hyperscape_bank_deposit_all" }
    else
      match state.entityValues.find? (fun e =>
        match e.name with
        | some n => strIncludes (strToLower n) "bank"
        | none => false) with
      | some bankNpc =>
        some { tool := "hyperscape_npc_interact", npcId := bankNpc.id, npcAction := "bank" }
      | none => none
  else none

/-- Source `getAlternativeAction`: fallback when the primary action is blocked
(the guardrail-result parameter of the source is unused by its body). -/
def getAlternativeAction (state : GameState) : Option ProposedAction :=
  -- `(health ?? 0) / (maxHealth ?? 1) * 100` (unlike `getHealthPercent`,
  -- no zero guard; `q / 0 = 0` here vs NaN/∞ in JS, reachable only when
  -- `maxHealth` is exactly 0).
  let hp := ((state.playerEntity.bind (fun p => p.health)).getD 0) /
            ((state.playerEntity.bind (fun p => p.maxHealth)).getD 1) * 100
  if hp < 25 then
    let food := (state.playerEntity.bind (fun p => p.inventory)).bind
      (fun inv => inv.find? (fun i =>
        match i.name with
        | some n => strIncludes (strToLower n) "fish" || strIncludes (strToLower n) "meat"
        | none => false))
    match food with
    | some f => some { tool := "hyperscape_use_item", itemId := f.itemId }
    | none => some { tool := "hyperscape_home_teleport" }
  else if state.dialogueOpen then
    some { tool := "hyperscape_dialogue_continue" }
  else if state.bankOpen then
    some { tool := "hyperscape_bank_close" }
  else if state.storeOpen then
    some { tool := "hyperscape_store_close" }
  else none

/-- Source `think`: build the tick's thought, vetting the derived action through
the guardrails and substituting the alternative action when blocked. -/
def think (env : TickEnv) (state : GameState) (a : Agent) : AgentThought :=
  let base : AgentThought :=
    { timestamp := env.now, action := none,
      goal := a.currentGoal.map (fun g => g.name), warnings := [] }
  match a.currentGoal with
  | none => base
  | some goal =>
    match selectActionForGoal env state goal with
    | none => base
    | some action =>
      let guardrailCheck := checkGuardrails state action
      if guardrailCheck.allowed then
        { base with action := some action, warnings := guardrailCheck.warnings }
      else
        let warnings := guardrailCheck.violations.map (fun v => v.2)
        match getAlternativeAction state with
        | some altAction => { base with action := some altAction, warnings }
        | none => { base with action := none, warnings }

/-- Source `stop()`: clear the running flag and cancel the pending tick timer
(and log the final stats; logging is not part of the model). -/
def Agent.stop (a : Agent) : Agent :=
  if !a.running then a
  else { a with running := false, tickTimerSet := false }

/-- Source `scheduleNextTick()`: re-arm the tick timer only while running. -/
def scheduleNextTick (a : Agent) : Agent :=
  if !a.running then a else { a with tickTimerSet := true }

/-- The respawn command dispatched directly by the death branch of `tick`. -/
def respawnAction : ProposedAction := { tool := "hyperscape_respawn" }

/-- Source `tick()`: one decision cycle, in the source's order: running check,
counter/timing updates, session-duration stop, death→respawn pre-emption,
goal completion, goal selection (with the `randomMove` fallback), then
think/guardrails/dispatch and the 50-entry thought-log trim. -/
def tick (env : TickEnv) (state : GameState) (a : Agent) : TickResult :=
  if !a.running then { agent := a, actions := [], randomMoved := false, stopped := false }
  else
    let stats := { a.stats with tickCount := a.stats.tickCount + 1 }
    let goalContext := { a.goalContext with
      sessionDuration := env.now - stats.sessionStart,
      timeSinceLastCombat := a.goalContext.timeSinceLastCombat + (a.config.tickInterval : WithTop ℚ),
      timeSinceLastSkilling := a.goalContext.timeSinceLastSkilling + (a.config.tickInterval : WithTop ℚ) }
    let a := { a with stats, goalContext }
    if goalContext.sessionDuration ≥ a.config.maxSessionDuration then
      { agent := a.stop, actions := [], randomMoved := false, stopped := true }
    else if playerIsDead state then
      { agent := a, actions := [respawnAction], randomMoved := false, stopped := false }
    else
      let a :=
        match a.currentGoal, a.goalProgress with
        | some goal, some progress =>
          if goal.isComplete state progress env.now then
            { a with
              goalContext := updateGoalContext a.goalContext goal.id,
              stats := { a.stats with goalsCompleted := a.stats.goalsCompleted + 1 },
              currentGoal := none, goalProgress := none }
          else a
        | _, _ => a
      let afterSelect : Option Agent :=
        match a.currentGoal with
        | some _ => some a
        | none =>
          match selectGoal state a.goalContext with
          | some goal =>
            some { a with currentGoal := some goal,
                          goalProgress := some { goalId := goal.id, startedAt := env.now } }
          | none => none
      match afterSelect with
      | none => { agent := a, actions := [], randomMoved := true, stopped := false }
      | some a =>
        let thought := think env state a
        let thoughts := a.thoughts ++ [thought]
        let thoughts := if thoughts.length > 50 then thoughts.drop (thoughts.length - 50) else thoughts
        let a := { a with thoughts }
        { agent := a,
          actions := match thought.action with
            | some act => [act]
            | none => [],
          randomMoved := false, stopped := false }

/-- The observable outcome of a `start()` call. -/
inductive StartOutcome where
  | warnedAlreadyRunning
  | errorNotConnected
  | started
deriving Repr, DecidableEq

/-- Source `start()`: warn-and-return when already running; throw when the client
is not connected; otherwise reset stats and goal context, mark running and
arm the tick timer. `connected` is `client.state.connected`. -/
def Agent.start (a : Agent) (connected : Bool) (now : ℚ) : StartOutcome × Agent :=
  if a.running then (StartOutcome.warnedAlreadyRunning, a)
  else if !connected then (StartOutcome.errorNotConnected, a)
  else
    let a := { a with running := true, stats := createStats now,
                      goalContext := createGoalContext }
    (StartOutcome.started, scheduleNextTick a)

-- === Theorems ===

-- Generic facts about the guardrail accumulation loop.

theorem Severity.isBlocking_iff (sev : Severity) :
    sev.isBlocking = true ↔ sev = Severity.block ∨ sev = Severity.critical := by
  cases sev <;> simp [Severity.isBlocking]

theorem Severity.not_isBlocking_eq (sev : Severity) :
    (!sev.isBlocking) = (sev == Severity.warning) := by
  cases sev <;> rfl

theorem checkGuardrailsList_allowed (s : GameState) (a : ProposedAction)
    (gs : List Guardrail) :
    (checkGuardrailsList s a gs).allowed
      = !(gs.any (fun g => g.severity.isBlocking && g.isTriggered s a)) := by
  induction gs with
  | nil => rfl
  | cons g gs ih =>
    simp only [checkGuardrailsList, List.any_cons]
    by_cases ht : g.isTriggered s a = true
    · by_cases hb : g.severity.isBlocking = true
      · simp [ht, hb]
      · simp only [Bool.not_eq_true] at hb
        simp [ht, hb, ih]
    · simp only [Bool.not_eq_true] at ht
      simp [ht, ih]

theorem checkGuardrailsList_warnings (s : GameState) (a : ProposedAction)
    (gs : List Guardrail) :
    (checkGuardrailsList s a gs).warnings
      = (gs.filter (fun g => !g.severity.isBlocking && g.isTriggered s a)).map
          (fun g => g.getMessage s) := by
  induction gs with
  | nil => rfl
  | cons g gs ih =>
    simp only [checkGuardrailsList, List.filter_cons]
    by_cases ht : g.isTriggered s a = true
    · by_cases hb : g.severity.isBlocking = true
      · simp [ht, hb, ih]
      · simp only [Bool.not_eq_true] at hb
        simp [ht, hb, ih]
    · simp only [Bool.not_eq_true] at ht
      simp [ht, ih]

/-- C1: `checkGuardrails` returns `allowed = false` iff some guardrail of
severity `block` or `critical` is triggered for this state and action;
the triggered `warning`-severity guardrails contribute exactly their
messages to the warnings list (in catalog order), and so no collection of
triggered warnings can force `allowed = false`. -/
theorem checkGuardrails_allowed_iff_blocking (s : GameState) (a : ProposedAction) :
    ((checkGuardrails s a).allowed = false ↔
      ∃ g ∈ GUARDRAILS,
        (g.severity = Severity.block ∨ g.severity = Severity.critical) ∧
        g.isTriggered s a = true)
    ∧ (checkGuardrails s a).warnings
        = (GUARDRAILS.filter (fun g =>
            (g.severity == Severity.warning) && g.isTriggered s a)).map
            (fun g => g.getMessage s) := by
  constructor
  · rw [checkGuardrails, checkGuardrailsList_allowed]
    rcases h : GUARDRAILS.any (fun g => g.severity.isBlocking && g.isTriggered s a) with _ | _
    · simp only [Bool.not_false]
      constructor
      · intro hc
        exact absurd hc (by simp)
      · rintro ⟨g, hg, hsev, htrig⟩
        rw [List.any_eq_false] at h
        have hfalse := h g hg
        simp [htrig, (Severity.isBlocking_iff g.severity).mpr hsev] at hfalse
    · simp only [Bool.not_true, true_iff]
      rw [List.any_eq_true] at h
      obtain ⟨g, hg, hgb⟩ := h
      rw [Bool.and_eq_true] at hgb
      exact ⟨g, hg, (Severity.isBlocking_iff g.severity).mp hgb.1, hgb.2⟩
  · rw [checkGuardrails, checkGuardrailsList_warnings]
    have hpred : (fun (g : Guardrail) => !g.severity.isBlocking && g.isTriggered s a)
        = (fun g => (g.severity == Severity.warning) && g.isTriggered s a) := by
      funext g
      rw [Severity.not_isBlocking_eq]
    rw [hpred]

/-- A triggered guardrail of blocking severity forces `allowed = false`. -/
theorem blocked_of_triggered (s : GameState) (a : ProposedAction) (g : Guardrail)
    (hg : g ∈ GUARDRAILS) (hb : g.severity.isBlocking = true)
    (ht : g.isTriggered s a = true) :
    (checkGuardrails s a).allowed = false := by
  rw [checkGuardrails, checkGuardrailsList_allowed]
  have hany : GUARDRAILS.any (fun g => g.severity.isBlocking && g.isTriggered s a) = true := by
    rw [List.any_eq_true]
    exact ⟨g, hg, by rw [hb, ht]; rfl⟩
  rw [hany]
  rfl

-- Concrete fixture states for the counterexamples and witnesses.

/-- A player at 10/100 health, alive, with an empty inventory. -/
def lowHpPlayer : PlayerEntity :=
  { inventory := some [], skills := none, equipment := none,
    isDead := some false, health := some 10, maxHealth := some 100,
    position := none }

/-- A quiet world around the low-health player: no entities, no UI open. -/
def lowHpState : GameState :=
  { connected := true, playerEntity := some lowHpPlayer, nearbyEntities := [],
    bankOpen := false, dialogueOpen := false, storeOpen := false,
    currentTarget := none }

/-- A proposed action whose tool matches no guardrail's tool list. -/
def idleAction : ProposedAction := { tool := "hyperscape_wait" }

theorem lowHpState_health : getHealthPercent lowHpState = 10 := by
  norm_num [getHealthPercent, lowHpState, lowHpPlayer]

/-- C2 counterexample: at 10% health (below 15%), alive, with an action
that triggers no guardrail other than `flee_threshold`, `checkGuardrails`
returns `allowed = false` — the critical-severity `flee_threshold` rule
does gate the action, contrary to the claim that it only surfaces as an
informational warning. -/
theorem flee_threshold_gates_counterexample :
    getHealthPercent lowHpState < 15 ∧
    playerIsDead lowHpState = false ∧
    (∀ g ∈ GUARDRAILS, g.id ≠ "flee_threshold" →
      g.isTriggered lowHpState idleAction = false) ∧
    (checkGuardrails lowHpState idleAction).allowed = false := by
  have hhp : getHealthPercent lowHpState < 15 := by
    rw [lowHpState_health]; norm_num
  have htrig : flee_threshold.isTriggered lowHpState idleAction = true := by
    simp only [flee_threshold]
    rw [decide_eq_true hhp]
    simp [playerIsDead, lowHpState, lowHpPlayer]
  refine ⟨hhp, rfl, by decide, ?_⟩
  exact blocked_of_triggered lowHpState idleAction flee_threshold
    (by simp [GUARDRAILS]) rfl htrig

/-- A healthy player (absent `maxHealth` reads as 100% health) holding a
gold bar whose display name contains no valuable keyword. -/
def goldBarPlayer : PlayerEntity :=
  { inventory := some [{ itemId := "gold_bar", quantity := 1, slot := 0,
                         name := some "Shiny bar" }],
    skills := none, equipment := none, isDead := some false,
    health := some 100, maxHealth := none, position := none }

def goldBarState : GameState :=
  { connected := true, playerEntity := some goldBarPlayer, nearbyEntities := [],
    bankOpen := false, dialogueOpen := false, storeOpen := false,
    currentTarget := none }

/-- The proposed drop of the gold bar. -/
def dropGoldBar : ProposedAction := { tool := "hyperscape_drop", itemId := "gold_bar" }

/-- C6 counterexample: dropping an item whose id contains the valuable
keyword `gold` is allowed, because the rule matches the keyword list
against the inventory item's display name when one exists (here
`Shiny bar`) and only falls back to the id when there is no name — so
"name or id contains a keyword ⇒ blocked" fails. -/
theorem drop_valuable_id_counterexample :
    dropGoldBar.tool = "hyperscape_drop" ∧
    strIncludes (strToLower dropGoldBar.itemId) "gold" = true ∧
    isValuableItem dropGoldBar.itemId none = true ∧
    (checkGuardrails goldBarState dropGoldBar).allowed = true := by
  refine ⟨rfl, by decide, by decide, by decide⟩

/-- C6 (amended): a drop action is blocked whenever the *effective* name —
the matching inventory item's display name when the item is found and
named, otherwise the dropped item id — contains one of the fixed valuable
keywords (case-insensitive). -/
theorem drop_valuable_blocked (s : GameState) (a : ProposedAction)
    (htool : a.tool = "hyperscape_drop")
    (hval : isValuableItem a.itemId (droppedItemName s a.itemId) = true) :
    (checkGuardrails s a).allowed = false := by
  have htrig : no_drop_valuables.isTriggered s a = true := by
    simp [no_drop_valuables, htool, hval]
  exact blocked_of_triggered s a no_drop_valuables (by simp [GUARDRAILS]) rfl htrig

/-- A player holding an unnamed rune sword. -/
def runeSwordPlayer : PlayerEntity :=
  { inventory := some [{ itemId := "rune_sword", quantity := 1, slot := 0,
                         name := none }],
    skills := none, equipment := none, isDead := some false,
    health := some 100, maxHealth := none, position := none }

def runeSwordState : GameState :=
  { connected := true, playerEntity := some runeSwordPlayer, nearbyEntities := [],
    bankOpen := false, dialogueOpen := false, storeOpen := false,
    currentTarget := none }

/-- C6 witness: dropping the unnamed `rune_sword` (its id matches the
`rune` keyword) is blocked. -/
theorem drop_valuable_blocked_witness :
    (checkGuardrails runeSwordState
      { tool := "hyperscape_drop", itemId := "rune_sword" }).allowed = false :=
  drop_valuable_blocked runeSwordState
    { tool := "hyperscape_drop", itemId := "rune_sword" } rfl (by decide)

/-- C2 (amended): whenever health-fraction is below 0.15 and the player is
not dead, the `flee_threshold` guardrail (severity critical) is triggered
for every proposed action, and — critical severity being blocking — it
does by itself gate the action: `checkGuardrails` returns
`allowed = false` for every proposed action in such a state. -/
theorem flee_threshold_blocks (s : GameState) (a : ProposedAction)
    (hhp : getHealthPercent s < 15) (hdead : playerIsDead s = false) :
    flee_threshold.isTriggered s a = true ∧
    flee_threshold.severity = Severity.critical ∧
    (checkGuardrails s a).allowed = false := by
  have htrig : flee_threshold.isTriggered s a = true := by
    simp [flee_threshold, hhp, hdead]
  refine ⟨htrig, rfl, ?_⟩
  exact blocked_of_triggered s a flee_threshold (by simp [GUARDRAILS]) rfl htrig

/-- C2 witness: the amended theorem applied at the concrete low-health
state and idle action. -/
theorem flee_threshold_blocks_witness :
    flee_threshold.isTriggered lowHpState idleAction = true ∧
    flee_threshold.severity = Severity.critical ∧
    (checkGuardrails lowHpState idleAction).allowed = false :=
  flee_threshold_blocks lowHpState idleAction
    (by rw [lowHpState_health]; norm_num) rfl

-- Facts about the stable descending sort used by goal selection.

theorem insertByScoreDesc_ne_nil (x : GoalTemplate × ℚ)
    (l : List (GoalTemplate × ℚ)) : insertByScoreDesc x l ≠ [] := by
  cases l with
  | nil => simp [insertByScoreDesc]
  | cons y ys =>
    by_cases h : x.2 ≥ y.2 <;> simp [insertByScoreDesc, h]

theorem sortByScoreDesc_eq_nil_iff (l : List (GoalTemplate × ℚ)) :
    sortByScoreDesc l = [] ↔ l = [] := by
  cases l with
  | nil => simp [sortByScoreDesc]
  | cons x xs =>
    simp only [sortByScoreDesc, List.foldr]
    exact ⟨fun h => absurd h (insertByScoreDesc_ne_nil x _), fun h => by cases h⟩

theorem head_insertByScoreDesc_cons (x y : GoalTemplate × ℚ)
    (ys : List (GoalTemplate × ℚ)) :
    (insertByScoreDesc x (y :: ys)).head? = some (if x.2 ≥ y.2 then x else y) := by
  by_cases h : x.2 ≥ y.2 <;> simp [insertByScoreDesc, h]

/-- The head of the stable descending sort is the *first* element of
maximal score: everything before it in the input scores strictly less,
everything after it scores no more. -/
theorem sortByScoreDesc_head_firstMax :
    ∀ (l : List (GoalTemplate × ℚ)) (x : GoalTemplate × ℚ),
      (sortByScoreDesc l).head? = some x →
      ∃ l₁ l₂, l = l₁ ++ x :: l₂ ∧
        (∀ y ∈ l₁, y.2 < x.2) ∧ (∀ y ∈ l₂, y.2 ≤ x.2) := by
  intro l
  induction l with
  | nil => intro x hx; simp [sortByScoreDesc] at hx
  | cons a t ih =>
    intro x hx
    have hstep : sortByScoreDesc (a :: t) = insertByScoreDesc a (sortByScoreDesc t) := rfl
    rw [hstep] at hx
    cases hs : sortByScoreDesc t with
    | nil =>
      have ht : t = [] := (sortByScoreDesc_eq_nil_iff t).mp hs
      subst ht
      simp only [sortByScoreDesc, List.foldr, insertByScoreDesc, List.head?] at hx
      obtain rfl : a = x := by injection hx
      exact ⟨[], [], rfl, by simp, by simp⟩
    | cons y ys =>
      rw [hs, head_insertByScoreDesc_cons] at hx
      obtain ⟨t₁, t₂, hteq, h1, h2⟩ := ih y (by rw [hs]; rfl)
      have hylek : ∀ z ∈ t, z.2 ≤ y.2 := by
        intro z hz
        rw [hteq] at hz
        rcases List.mem_append.mp hz with hz1 | hz2
        · exact le_of_lt (h1 z hz1)
        · rcases List.mem_cons.mp hz2 with rfl | hz3
          · exact le_refl _
          · exact h2 z hz3
      by_cases hcmp : a.2 ≥ y.2
      · rw [if_pos hcmp] at hx
        obtain rfl : a = x := by injection hx
        refine ⟨[], t, rfl, by simp, ?_⟩
        intro z hz
        exact le_trans (hylek z hz) hcmp
      · rw [if_neg hcmp] at hx
        obtain rfl : y = x := by injection hx
        refine ⟨a :: t₁, t₂, by rw [hteq]; rfl, ?_, h2⟩
        intro z hz
        rcases List.mem_cons.mp hz with rfl | hz1
        · exact lt_of_not_ge hcmp
        · exact h1 z hz1

/-- Full characterization of `selectGoal` (shared workhorse lemma). -/
theorem selectGoal_props (s : GameState) (c : GoalContext) :
    (selectGoal s c = none ↔ ∀ g ∈ GOAL_TEMPLATES, g.isPossible s = false)
    ∧ (∀ g, selectGoal s c = some g →
        g.isPossible s = true ∧
        ∃ l₁ l₂,
          GOAL_TEMPLATES.filter (fun t => t.isPossible s) = l₁ ++ g :: l₂ ∧
          (∀ t ∈ l₁, t.score s c < g.score s c) ∧
          (∀ t ∈ l₂, t.score s c ≤ g.score s c)) := by
  constructor
  · by_cases hemp : (GOAL_TEMPLATES.filter (fun g => g.isPossible s)).isEmpty
    · constructor
      · intro _
        rw [List.isEmpty_iff, List.filter_eq_nil_iff] at hemp
        intro g hg
        have := hemp g hg
        simpa using this
      · intro _
        simp [selectGoal, hemp]
    · constructor
      · intro hnone
        exfalso
        simp only [selectGoal] at hnone
        rw [if_neg hemp] at hnone
        rw [List.isEmpty_iff] at hemp
        rcases hmap : sortByScoreDesc ((GOAL_TEMPLATES.filter (fun g => g.isPossible s)).map
            (fun g => (g, g.score s c))) with _ | ⟨p, ps⟩
        · rw [sortByScoreDesc_eq_nil_iff, List.map_eq_nil_iff] at hmap
          exact hemp hmap
        · rw [hmap] at hnone
          simp at hnone
      · intro hall
        rw [List.isEmpty_iff, List.filter_eq_nil_iff] at hemp
        exfalso
        apply hemp
        intro g hg
        simp [hall g hg]
  · intro g hsel
    simp only [selectGoal] at hsel
    by_cases hemp : (GOAL_TEMPLATES.filter (fun g => g.isPossible s)).isEmpty
    · rw [if_pos hemp] at hsel; cases hsel
    · rw [if_neg hemp] at hsel
      rcases hhead : (sortByScoreDesc ((GOAL_TEMPLATES.filter (fun g => g.isPossible s)).map
          (fun g => (g, g.score s c)))).head? with _ | x
      · rw [hhead] at hsel; cases hsel
      · rw [hhead] at hsel
        simp only [Option.map_some'] at hsel
        obtain rfl : x.1 = g := by injection hsel
        obtain ⟨p₁, p₂, hdecomp, hlt, hle⟩ := sortByScoreDesc_head_firstMax _ x hhead
        have hscores : ∀ y ∈ (GOAL_TEMPLATES.filter (fun t => t.isPossible s)).map
            (fun t => (t, t.score s c)), y.2 = y.1.score s c := by
          intro y hy
          rw [List.mem_map] at hy
          obtain ⟨t, _, rfl⟩ := hy
          rfl
        have hxmem : x ∈ (GOAL_TEMPLATES.filter (fun t => t.isPossible s)).map
            (fun t => (t, t.score s c)) := by
          rw [hdecomp]
          exact List.mem_append.mpr (Or.inr (List.mem_cons_self _ _))
        have hxscore : x.2 = x.1.score s c := hscores x hxmem
        have hxposs : x.1 ∈ GOAL_TEMPLATES.filter (fun t => t.isPossible s) := by
          rw [List.mem_map] at hxmem
          obtain ⟨t, ht, heq⟩ := hxmem
          have hfst : t = x.1 := by rw [← heq]
          rw [← hfst]
          exact ht
        refine ⟨(List.mem_filter.mp hxposs).2, p₁.map Prod.fst, p₂.map Prod.fst, ?_, ?_, ?_⟩
        · have hfst := congrArg (List.map Prod.fst) hdecomp
          simp only [List.map_map] at hfst
          rw [show (Prod.fst ∘ fun (g : GoalTemplate) => (g, g.score s c)) = id from rfl,
              List.map_id] at hfst
          simpa using hfst
        · intro t ht
          rw [List.mem_map] at ht
          obtain ⟨y, hy, rfl⟩ := ht
          have hymem : y ∈ (GOAL_TEMPLATES.filter (fun t => t.isPossible s)).map
              (fun t => (t, t.score s c)) := by
            rw [hdecomp]
            exact List.mem_append.mpr (Or.inl hy)
          have hys := hscores y hymem
          rw [← hys, ← hxscore]
          exact hlt y hy
        · intro t ht
          rw [List.mem_map] at ht
          obtain ⟨y, hy, rfl⟩ := ht
          have hymem : y ∈ (GOAL_TEMPLATES.filter (fun t => t.isPossible s)).map
              (fun t => (t, t.score s c)) := by
            rw [hdecomp]
            exact List.mem_append.mpr (Or.inr (List.mem_cons_of_mem _ hy))
          have hys := hscores y hymem
          rw [← hys, ← hxscore]
          exact hle y hy

/-- C3: `selectGoal` returns `none` exactly when no catalog goal is
possible; otherwise it returns a possible goal whose score is maximal
among the possible goals, with ties broken by catalog order (it is the
first possible goal attaining the maximal score: all earlier possible
goals score strictly less). In particular an impossible goal is never
returned. -/
theorem selectGoal_spec (s : GameState) (c : GoalContext) :
    (selectGoal s c = none ↔ ∀ g ∈ GOAL_TEMPLATES, g.isPossible s = false)
    ∧ (∀ g, selectGoal s c = some g →
        g.isPossible s = true ∧
        ∃ l₁ l₂,
          GOAL_TEMPLATES.filter (fun t => t.isPossible s) = l₁ ++ g :: l₂ ∧
          (∀ t ∈ l₁, t.score s c < g.score s c) ∧
          (∀ t ∈ l₂, t.score s c ≤ g.score s c)) :=
  selectGoal_props s c

/-- A healthy, unequipped player in an empty world (absent `maxHealth`
reads as 100% health): only `explore_area` is possible. -/
def healthyPlayer : PlayerEntity :=
  { inventory := some [], skills := none, equipment := none,
    isDead := some false, health := some 100, maxHealth := none,
    position := none }

def healthyState : GameState :=
  { connected := true, playerEntity := some healthyPlayer, nearbyEntities := [],
    bankOpen := false, dialogueOpen := false, storeOpen := false,
    currentTarget := none }

/-- C3 witness: the characterization applied at a state where exactly
`explore_area` is possible, so `selectGoal` returns it. -/
theorem selectGoal_spec_witness :
    explore_area.isPossible healthyState = true ∧
    ∃ l₁ l₂,
      GOAL_TEMPLATES.filter (fun t => t.isPossible healthyState) =
        l₁ ++ explore_area :: l₂ ∧
      (∀ t ∈ l₁, t.score healthyState createGoalContext <
        explore_area.score healthyState createGoalContext) ∧
      (∀ t ∈ l₂, t.score healthyState createGoalContext ≤
        explore_area.score healthyState createGoalContext) :=
  (selectGoal_spec healthyState createGoalContext).2 explore_area rfl

-- Clamped-score helpers for the diversity-penalty analysis.

theorem clamped_sub_le (B p : ℚ) (hp : 0 ≤ p) : max 0 (B - p) ≤ max 0 B :=
  max_le_max (le_refl 0) (by linarith)

theorem clamped_sub_lt (B p : ℚ) (hp : 0 < p) (hpos : 0 < max 0 B) :
    max 0 (B - p) < max 0 B := by
  apply max_lt hpos
  have hB : B ≤ max 0 B := le_max_right 0 B
  linarith

/-- A nameless mob entity. -/
def mobEntity (i : String) : Entity :=
  { id := i, type := "mob", name := none, position := none, health := none,
    maxHealth := none, level := none, alive := none, combatLevel := none }

/-- A tree (resource) entity. -/
def treeEntity (i : String) : Entity :=
  { id := i, type := "tree", name := none, position := none, health := none,
    maxHealth := none, level := none, alive := none, combatLevel := none }

/-- The healthy player surrounded by four mobs and four resource nodes. -/
def fourFourState : GameState :=
  { connected := true, playerEntity := some healthyPlayer,
    nearbyEntities :=
      [("m1", mobEntity "m1"), ("m2", mobEntity "m2"),
       ("m3", mobEntity "m3"), ("m4", mobEntity "m4"),
       ("r1", treeEntity "r1"), ("r2", treeEntity "r2"),
       ("r3", treeEntity "r3"), ("r4", treeEntity "r4")],
    bankOpen := false, dialogueOpen := false, storeOpen := false,
    currentTarget := none }

/-- A session context recording one recent completion of `explore_area`. -/
def ctxOneExplore : GoalContext :=
  { createGoalContext with recentGoalCounts := [("explore_area", 1)] }

theorem ctxOneExplore_count :
    recordGetD ctxOneExplore.recentGoalCounts "explore_area" 0 = 1 := rfl

theorem fourFourState_mobs : (getNearbyMobs fourFourState).length = 4 := rfl

theorem fourFourState_resources : (getNearbyResources fourFourState).length = 4 := rfl

/-- C7 counterexample: the strict-decrease part of the claim fails. In a
state with four mobs and four resources nearby, `explore_area`'s
unpenalized score already clamps to 0, and one recent completion leaves
it at 0 — not strictly lower. -/
theorem diversity_strict_decrease_counterexample :
    recordGetD ctxOneExplore.recentGoalCounts "explore_area" 0 = 1 ∧
    recordGetD createGoalContext.recentGoalCounts "explore_area" 0 = 0 ∧
    ctxOneExplore.sessionDuration = createGoalContext.sessionDuration ∧
    explore_area.score fourFourState ctxOneExplore =
      explore_area.score fourFourState createGoalContext := by
  refine ⟨rfl, rfl, rfl, ?_⟩
  have hp1 : getDiversityPenalty "explore_area" ctxOneExplore = 15 := by
    rw [getDiversityPenalty, ctxOneExplore_count]
    norm_num
  have hp0 : getDiversityPenalty "explore_area" createGoalContext = 0 := by
    rw [getDiversityPenalty]
    norm_num [createGoalContext, recordGetD]
  simp only [explore_area]
  rw [hp0, hp1, fourFourState_mobs, fourFourState_resources]
  norm_num [createGoalContext, ctxOneExplore]

/-- C7 (amended): the diversity penalty equals
`min(recentCompletionCount(goalId) * 15, 45)`, is monotone in the
completion count, and is capped at 45; a goal with at least one recent
completion scores *no more than* the otherwise-identical zero-completion
goal (shown for `explore_area`), and scores *strictly less* whenever the
zero-completion score is positive — strictness can fail only when both
scores clamp to 0. -/
theorem diversityPenalty_spec :
    (∀ gid ctx, getDiversityPenalty gid ctx =
      min (recordGetD ctx.recentGoalCounts gid 0 * 15) 45)
    ∧ (∀ gid c₁ c₂,
        recordGetD c₁.recentGoalCounts gid 0 ≤ recordGetD c₂.recentGoalCounts gid 0 →
        getDiversityPenalty gid c₁ ≤ getDiversityPenalty gid c₂)
    ∧ (∀ gid ctx, getDiversityPenalty gid ctx ≤ 45)
    ∧ (∀ (s : GameState) (c₀ c₁ : GoalContext),
        recordGetD c₀.recentGoalCounts "explore_area" 0 = 0 →
        1 ≤ recordGetD c₁.recentGoalCounts "explore_area" 0 →
        c₁.sessionDuration = c₀.sessionDuration →
        explore_area.score s c₁ ≤ explore_area.score s c₀ ∧
        (0 < explore_area.score s c₀ →
          explore_area.score s c₁ < explore_area.score s c₀)) := by
  refine ⟨fun gid ctx => rfl, ?_, ?_, ?_⟩
  · intro gid c₁ c₂ h
    rw [getDiversityPenalty, getDiversityPenalty]
    exact min_le_min (by linarith) (le_refl _)
  · intro gid ctx
    exact min_le_right _ _
  · intro s c₀ c₁ h0 h1 hdur
    have hp0 : getDiversityPenalty "explore_area" c₀ = 0 := by
      rw [getDiversityPenalty, h0]
      norm_num
    have hp1 : (15 : ℚ) ≤ getDiversityPenalty "explore_area" c₁ := by
      rw [getDiversityPenalty]
      exact le_min (by linarith) (by norm_num)
    simp only [explore_area]
    rw [hdur, hp0, sub_zero]
    constructor
    · exact clamped_sub_le _ _ (by linarith)
    · intro hpos
      exact clamped_sub_lt _ _ (by linarith) hpos

/-- C7 witness: in the empty-world state the zero-completion
`explore_area` score is positive, so one recent completion strictly
lowers it. -/
theorem diversityPenalty_spec_witness :
    explore_area.score healthyState ctxOneExplore ≤
      explore_area.score healthyState createGoalContext ∧
    explore_area.score healthyState ctxOneExplore <
      explore_area.score healthyState createGoalContext := by
  have h := diversityPenalty_spec.2.2.2 healthyState createGoalContext ctxOneExplore
    rfl (by rw [ctxOneExplore_count]) rfl
  refine ⟨h.1, h.2 ?_⟩
  have hp0 : getDiversityPenalty "explore_area" createGoalContext = 0 := by
    rw [getDiversityPenalty]
    norm_num [createGoalContext, recordGetD]
  simp only [explore_area]
  rw [hp0]
  norm_num [createGoalContext, healthyState, getNearbyMobs, getNearbyResources,
    GameState.entityValues]

-- Score bounds used in the health-0.10 scenario analysis.

theorem diversityPenalty_nonneg (gid : String) (c : GoalContext)
    (h : 0 ≤ recordGetD c.recentGoalCounts gid 0) :
    0 ≤ getDiversityPenalty gid c := by
  rw [getDiversityPenalty]
  exact le_min (by linarith) (by norm_num)

theorem eat_food_score_le (s : GameState) (c : GoalContext) :
    eat_food.score s c ≤ 80 := by
  simp only [eat_food]
  split_ifs <;> norm_num

theorem gather_resources_score_le (s : GameState) (c : GoalContext)
    (h : 0 ≤ recordGetD c.recentGoalCounts "gather_resources" 0) :
    gather_resources.score s c ≤ 70 := by
  have hpen := diversityPenalty_nonneg "gather_resources" c h
  simp only [gather_resources]
  apply max_le (by norm_num)
  split_ifs <;> linarith

theorem collect_loot_score_le (s : GameState) (c : GoalContext)
    (h : 0 ≤ recordGetD c.recentGoalCounts "collect_loot" 0) :
    collect_loot.score s c ≤ 85 := by
  have hpen := diversityPenalty_nonneg "collect_loot" c h
  simp only [collect_loot]
  apply max_le (by norm_num)
  split_ifs <;> linarith

theorem bank_items_score_le (s : GameState) (c : GoalContext) :
    bank_items.score s c ≤ 70 := by
  simp only [bank_items]
  split_ifs <;> norm_num

/-- A player at exactly 10% health holding a raw fish (food). -/
def fleeTenPlayer : PlayerEntity :=
  { inventory := some [{ itemId := "raw_fish", quantity := 1, slot := 0,
                         name := some "Raw fish" }],
    skills := none, equipment := none, isDead := some false,
    health := some 10, maxHealth := some 100, position := none }

def fleeTenState : GameState :=
  { connected := true, playerEntity := some fleeTenPlayer, nearbyEntities := [],
    bankOpen := false, dialogueOpen := false, storeOpen := false,
    currentTarget := none }

theorem fleeTenState_health : getHealthPercent fleeTenState = 10 := by
  norm_num [getHealthPercent, fleeTenState, fleeTenPlayer]

/-- C8 counterexample: at health-fraction exactly 0.10 (not below it),
`flee_danger.score` is 95, not 100 — the `hp < 10` tier does not apply at
the boundary. -/
theorem flee_score_at_ten_counterexample :
    getHealthPercent fleeTenState = 10 ∧
    playerIsDead fleeTenState = false ∧
    hasFood fleeTenState = true ∧
    flee_danger.score fleeTenState createGoalContext = 95 ∧
    flee_danger.score fleeTenState createGoalContext ≠ 100 := by
  refine ⟨fleeTenState_health, rfl, by decide, ?_, ?_⟩ <;>
    simp only [flee_danger] <;> rw [fleeTenState_health] <;> norm_num

/-- C8 (amended): in every state at health-fraction exactly 0.10 with the
player alive and food in the inventory, and for every context with
nonnegative recent-completion counts (as maintained by the program),
`selectGoal` returns `flee_danger`, whose score is 95 (not 100),
beating `eat_food`'s score of at most 80. -/
theorem flee_danger_selected_at_ten (s : GameState) (c : GoalContext)
    (hhp : getHealthPercent s = 10)
    (hdead : playerIsDead s = false)
    (hfood : hasFood s = true)
    (hcounts : ∀ gid, 0 ≤ recordGetD c.recentGoalCounts gid 0) :
    selectGoal s c = some flee_danger ∧
    flee_danger.score s c = 95 ∧
    eat_food.score s c ≤ 80 := by
  have hfscore : flee_danger.score s c = 95 := by
    simp only [flee_danger]
    rw [hhp]
    norm_num
  have hfposs : flee_danger.isPossible s = true := by
    simp only [flee_danger]
    rw [hhp, hdead]
    norm_num
  refine ⟨?_, hfscore, eat_food_score_le s c⟩
  obtain ⟨hnone_iff, hsome⟩ := selectGoal_props s c
  cases hsel : selectGoal s c with
  | none =>
    have := hnone_iff.mp hsel flee_danger (by simp [GOAL_TEMPLATES])
    rw [hfposs] at this
    cases this
  | some g =>
    obtain ⟨hgposs, l₁, l₂, hdec, hlt, hle⟩ := hsome g hsel
    have hfmem : flee_danger ∈ GOAL_TEMPLATES.filter (fun t => t.isPossible s) :=
      List.mem_filter.mpr ⟨by simp [GOAL_TEMPLATES], hfposs⟩
    rw [hdec] at hfmem
    have hok : g = flee_danger ∨ (95 : ℚ) ≤ g.score s c := by
      rcases List.mem_append.mp hfmem with hin1 | hin2
      · exact Or.inr (by rw [← hfscore]; exact le_of_lt (hlt _ hin1))
      · rcases List.mem_cons.mp hin2 with heq | hin3
        · exact Or.inl heq.symm
        · exact Or.inr (by rw [← hfscore]; exact hle _ hin3)
    rcases hok with rfl | hge
    · rfl
    · have hgmem : g ∈ GOAL_TEMPLATES := by
        have : g ∈ GOAL_TEMPLATES.filter (fun t => t.isPossible s) := by
          rw [hdec]
          exact List.mem_append.mpr (Or.inr (List.mem_cons_self _ _))
        exact (List.mem_filter.mp this).1
      simp only [GOAL_TEMPLATES, List.mem_cons, List.not_mem_nil, or_false] at hgmem
      rcases hgmem with rfl | rfl | rfl | rfl | rfl | rfl | rfl | rfl
      · rfl
      · have := eat_food_score_le s c
        linarith
      · rw [show respawn.isPossible s = playerIsDead s from rfl, hdead] at hgposs
        cases hgposs
      · exfalso
        revert hgposs
        simp only [train_combat]
        rw [hhp]
        norm_num
      · have := gather_resources_score_le s c (hcounts "gather_resources")
        linarith
      · exfalso
        revert hgposs
        simp only [explore_area]
        rw [hhp, hdead]
        norm_num
      · have := collect_loot_score_le s c (hcounts "collect_loot")
        linarith
      · have := bank_items_score_le s c
        linarith

/-- C8 witness: the amended theorem applied at the concrete
10%-health-with-fish state and the fresh session context. -/
theorem flee_danger_selected_at_ten_witness :
    selectGoal fleeTenState createGoalContext = some flee_danger ∧
    flee_danger.score fleeTenState createGoalContext = 95 ∧
    eat_food.score fleeTenState createGoalContext ≤ 80 :=
  flee_danger_selected_at_ten fleeTenState createGoalContext
    fleeTenState_health rfl (by decide) (fun _ => le_refl 0)

-- Agent fixtures for the decision-loop theorems.

def baseAgentConfig : AgentConfig :=
  { tickInterval := 10000, maxSessionDuration := 3600000, verbose := false }

/-- A freshly started agent (session began at time 0). -/
def baseAgent : Agent :=
  { config := baseAgentConfig, running := true, tickTimerSet := true,
    goalContext := createGoalContext, currentGoal := none, goalProgress := none,
    thoughts := [], stats := createStats 0 }

def stoppedAgent : Agent := { baseAgent with running := false, tickTimerSet := false }

def tickEnvZero : TickEnv := { now := 1000, exploreDx := 0, exploreDz := 0 }

def tickEnvLate : TickEnv := { now := 3600000, exploreDx := 0, exploreDz := 0 }

/-- The healthy player, dead. -/
def deadState : GameState :=
  { healthyState with
    playerEntity := some { healthyPlayer with isDead := some true } }

/-- C4: on a tick where the player is dead (and the session ceiling has
not been reached), the loop dispatches exactly the respawn command and
pre-empts everything else: no goal completion, selection, derivation or
guardrail check happens (current goal, progress, thought log and the
goals-completed counter are untouched), and the `respawn` goal template's
score is the constant 100. -/
theorem tick_respawn_preemption (env : TickEnv) (state : GameState) (a : Agent)
    (hrun : a.running = true)
    (hsession : env.now - a.stats.sessionStart < a.config.maxSessionDuration)
    (hdead : playerIsDead state = true) :
    (tick env state a).actions = [respawnAction] ∧
    respawnAction.tool = "hyperscape_respawn" ∧
    (tick env state a).randomMoved = false ∧
    (tick env state a).stopped = false ∧
    (tick env state a).agent.currentGoal = a.currentGoal ∧
    (tick env state a).agent.goalProgress = a.goalProgress ∧
    (tick env state a).agent.thoughts = a.thoughts ∧
    (tick env state a).agent.stats.goalsCompleted = a.stats.goalsCompleted ∧
    (tick env state a).agent.running = true ∧
    (∀ (s : GameState) (c : GoalContext), respawn.score s c = 100) := by
  have hnot : ¬(env.now - a.stats.sessionStart ≥ a.config.maxSessionDuration) :=
    not_le.mpr hsession
  simp only [tick, hrun, hdead, hnot]
  refine ⟨by simp [hnot, hdead, hrun], rfl, by simp [hnot, hdead, hrun], by simp [hnot, hdead, hrun],
    by simp [hnot, hdead, hrun], by simp [hnot, hdead, hrun], by simp [hnot, hdead, hrun],
    by simp [hnot, hdead, hrun], by simp [hnot, hdead, hrun], fun s c => rfl⟩

/-- C4 witness: the theorem applied at the dead-player state on the
fresh agent. -/
theorem tick_respawn_preemption_witness :
    (tick tickEnvZero deadState baseAgent).actions = [respawnAction] ∧
    respawnAction.tool = "hyperscape_respawn" ∧
    (tick tickEnvZero deadState baseAgent).randomMoved = false ∧
    (tick tickEnvZero deadState baseAgent).stopped = false ∧
    (tick tickEnvZero deadState baseAgent).agent.currentGoal = baseAgent.currentGoal ∧
    (tick tickEnvZero deadState baseAgent).agent.goalProgress = baseAgent.goalProgress ∧
    (tick tickEnvZero deadState baseAgent).agent.thoughts = baseAgent.thoughts ∧
    (tick tickEnvZero deadState baseAgent).agent.stats.goalsCompleted =
      baseAgent.stats.goalsCompleted ∧
    (tick tickEnvZero deadState baseAgent).agent.running = true ∧
    (∀ (s : GameState) (c : GoalContext), respawn.score s c = 100) :=
  tick_respawn_preemption tickEnvZero deadState baseAgent rfl
    (by norm_num [tickEnvZero, baseAgent, baseAgentConfig, createStats]) rfl

/-- C5: a tick that finds the session duration at or above the configured
maximum stops the agent — `running` becomes false, the pending tick timer
is cancelled, the stop (with its final stats log) is the only observable
effect, and goal state and thought log are untouched; a tick on a
non-running agent is a complete no-op, a tick never turns `running` back
on, and rescheduling on a stopped agent does not re-arm the timer — so no
later tick of the session executes any goal or guardrail logic. -/
theorem tick_session_ceiling (env : TickEnv) (state : GameState) (a : Agent) :
    (a.running = true →
      a.config.maxSessionDuration ≤ env.now - a.stats.sessionStart →
      (tick env state a).stopped = true ∧
      (tick env state a).agent.running = false ∧
      (tick env state a).agent.tickTimerSet = false ∧
      (tick env state a).actions = [] ∧
      (tick env state a).randomMoved = false ∧
      (tick env state a).agent.currentGoal = a.currentGoal ∧
      (tick env state a).agent.goalProgress = a.goalProgress ∧
      (tick env state a).agent.thoughts = a.thoughts ∧
      (tick env state a).agent.stats.goalsCompleted = a.stats.goalsCompleted)
    ∧ (a.running = false →
      tick env state a = { agent := a, actions := [], randomMoved := false, stopped := false })
    ∧ ((tick env state a).agent.running = true → a.running = true)
    ∧ (a.running = false → scheduleNextTick a = a) := by
  refine ⟨?_, ?_, ?_, ?_⟩
  · intro hrun hceil
    simp [tick, hrun, hceil, Agent.stop]
  · intro hrun
    simp [tick, hrun]
  · intro hrt
    cases hb : a.running with
    | true => rfl
    | false =>
      simp [tick, hb] at hrt
  · intro hrun
    simp [scheduleNextTick, hrun]

/-- C5 witness: the theorem applied both at a tick whose clock reading
meets the one-hour default ceiling (the agent stops) and at an
already-stopped agent (the tick is a no-op and the timer stays off). -/
theorem tick_session_ceiling_witness :
    ((tick tickEnvLate healthyState baseAgent).stopped = true ∧
      (tick tickEnvLate healthyState baseAgent).agent.running = false ∧
      (tick tickEnvLate healthyState baseAgent).agent.tickTimerSet = false) ∧
    tick tickEnvZero healthyState stoppedAgent =
      { agent := stoppedAgent, actions := [], randomMoved := false, stopped := false } ∧
    scheduleNextTick stoppedAgent = stoppedAgent := by
  have h1 := (tick_session_ceiling tickEnvLate healthyState baseAgent).1 rfl
    (by norm_num [tickEnvLate, baseAgent, baseAgentConfig, createStats])
  have h2 := (tick_session_ceiling tickEnvZero healthyState stoppedAgent).2.1 rfl
  have h4 := (tick_session_ceiling tickEnvZero healthyState stoppedAgent).2.2.2 rfl
  exact ⟨⟨h1.1, h1.2.1, h1.2.2.1⟩, h2, h4⟩

/-- C9: `start()` on a non-running agent whose client is not connected
fails with the immediately-surfaced connection error and changes nothing;
`start()` on an already-running agent returns the logged-warning no-op
outcome and leaves the running session (stats, goal context, timer flag)
exactly as it was. -/
theorem start_spec (a : Agent) (connected : Bool) (now : ℚ) :
    (a.running = false → connected = false →
      a.start connected now = (StartOutcome.errorNotConnected, a))
    ∧ (a.running = true →
      a.start connected now = (StartOutcome.warnedAlreadyRunning, a)) := by
  constructor
  · intro hrun hconn
    simp [Agent.start, hrun, hconn]
  · intro hrun
    simp [Agent.start, hrun]

/-- C9 witness: the theorem applied to a stopped agent with a
disconnected client and to a running agent. -/
theorem start_spec_witness :
    stoppedAgent.start false 0 = (StartOutcome.errorNotConnected, stoppedAgent) ∧
    baseAgent.start true 0 = (StartOutcome.warnedAlreadyRunning, baseAgent) :=
  ⟨(start_spec stoppedAgent false 0).1 rfl rfl,
   (start_spec baseAgent true 0).2 rfl⟩

-- Fixture for the eat_food derivation gap.

/-- An item that counts as food for `hasFood` (its id contains `cooked`)
but not for the action derivation (its name has no fish/meat/bread). -/
def shrimpItem : InventoryItem :=
  { itemId := "cooked_shrimp", quantity := 1, slot := 0, name := some "Shrimp" }

/-- A player at 50% health holding only the cooked shrimp. -/
def shrimpPlayer : PlayerEntity :=
  { inventory := some [shrimpItem], skills := none, equipment := none,
    isDead := some false, health := some 50, maxHealth := some 100,
    position := none }

def shrimpState : GameState :=
  { connected := true, playerEntity := some shrimpPlayer, nearbyEntities := [],
    bankOpen := false, dialogueOpen := false, storeOpen := false,
    currentTarget := none }

theorem shrimpState_health : getHealthPercent shrimpState = 50 := by
  norm_num [getHealthPercent, shrimpState, shrimpPlayer]

theorem shrimpState_filter :
    GOAL_TEMPLATES.filter (fun g => g.isPossible shrimpState) = [eat_food] := by
  have pflee : flee_danger.isPossible shrimpState = false := by
    simp only [flee_danger]
    rw [shrimpState_health]
    norm_num
  have peat : eat_food.isPossible shrimpState = true := by
    simp only [eat_food]
    rw [shrimpState_health]
    norm_num [show hasFood shrimpState = true from by decide]
  have pexplore : explore_area.isPossible shrimpState = false := by
    simp only [explore_area]
    rw [shrimpState_health]
    norm_num
  have ptrain : train_combat.isPossible shrimpState = false := rfl
  have presp : respawn.isPossible shrimpState = false := rfl
  have pgather : gather_resources.isPossible shrimpState = false := rfl
  have ploot : collect_loot.isPossible shrimpState = false := rfl
  have pbank : bank_items.isPossible shrimpState = false := rfl
  simp [GOAL_TEMPLATES, List.filter_cons, pflee, peat, presp, ptrain, pgather,
    pexplore, ploot, pbank]

/-- C10: a state in which `eat_food` is selectable — health below 60% and
an inventory item whose id contains `cooked` — but whose item name
contains none of fish/meat/bread, so the goal-to-action derivation for
`eat_food` finds no food and returns no action, and the tick dispatches
nothing (and does not even fall back to a random move). -/
theorem eat_food_derivation_gap :
    strIncludes shrimpItem.itemId "cooked" = true ∧
    strIncludes (strToLower "Shrimp") "fish" = false ∧
    strIncludes (strToLower "Shrimp") "meat" = false ∧
    strIncludes (strToLower "Shrimp") "bread" = false ∧
    getHealthPercent shrimpState < 60 ∧
    eat_food.isPossible shrimpState = true ∧
    selectGoal shrimpState createGoalContext = some eat_food ∧
    selectActionForGoal tickEnvZero shrimpState eat_food = none ∧
    (tick tickEnvZero shrimpState baseAgent).actions = [] ∧
    (tick tickEnvZero shrimpState baseAgent).randomMoved = false := by
  have hdeadS : playerIsDead shrimpState = false := rfl
  have hsel : ∀ c, selectGoal shrimpState c = some eat_food := by
    intro c
    simp [selectGoal, shrimpState_filter, sortByScoreDesc, insertByScoreDesc]
  have hact : ∀ env, selectActionForGoal env shrimpState eat_food = none := fun _ => rfl
  have hpeat : eat_food.isPossible shrimpState = true := by
    simp only [eat_food]
    rw [shrimpState_health]
    norm_num [show hasFood shrimpState = true from by decide]
  refine ⟨by decide, by decide, by decide, by decide,
    by rw [shrimpState_health]; norm_num, hpeat, hsel createGoalContext, hact tickEnvZero,
    ?_, ?_⟩ <;>
    norm_num [tick, baseAgent, baseAgentConfig, createStats, hdeadS, hsel, hact, think,
      tickEnvZero]
